import Mathlib

/-!
Verification of the incremental parallel export-and-cache engine of the
godot-examples-docs build pipeline.  The development shallowly embeds the
relevant parts of `build_system/scons_build.py`,
`build_system/tools/parallel_manager.py` and
`build_system/tools/godot_exporter.py`: pure computations become Lean
functions, filesystem and subprocess effects become explicit inputs
(association-list snapshots of the disk, an outcome value for each external
subprocess invocation), and Python exception handling becomes explicit
result values.  Theorems below settle claims about staleness checking,
cache update and idempotence, concurrency sizing, export success criteria,
per-target error handling, cache persistence and project scanning.
-/

namespace GodotBuild

/-! ## Resource probe: `build_system/tools/parallel_manager.py` -/

/-- Decimal digit value of a character, `none` for a non-digit. -/
def digitVal (c : Char) : Option Nat :=
  if c.isDigit then some (c.toNat - '0'.toNat) else none

/-- Value of a nonempty all-digit character sequence, `none` otherwise. -/
def parseDigits (l : List Char) : Option Nat :=
  if l.isEmpty then none
  else l.foldl (fun acc c =>
    match acc, digitVal c with
    | some a, some d => some (a * 10 + d)
    | _, _ => none) (some 0)

/-- Models Python's `int(...)` conversion applied to an environment
variable: an optional sign followed by decimal digits yields the signed
value, anything else raises `ValueError`, modelled as `none`. -/
def parsePyInt (s : String) : Option Int :=
  match s.data with
  | '-' :: rest => (parseDigits rest).map (fun n => -(n : Int))
  | '+' :: rest => (parseDigits rest).map (fun n => (n : Int))
  | l => (parseDigits l).map (fun n => (n : Int))

/--
Embeds the observable state a `ParallelManager` instance is constructed
from: `multiprocessing.cpu_count()`, `psutil.virtual_memory().available`
expressed in GB (a rational, standing for the Python float arithmetic),
the soft file-descriptor limit from `resource.getrlimit(RLIMIT_NOFILE)`,
whether one of the CI environment variables (`CI`, `GITHUB_ACTIONS`,
`GITLAB_CI`, `JENKINS_URL`, `BUILDKITE`) is present, and the raw value of
the `MAX_PARALLEL_JOBS` environment variable (`none` when unset).
-/
structure ParallelManager where
  cpuCount : Nat
  availableMemory : ℚ
  softFdLimit : Nat
  isCI : Bool
  envMaxParallelJobs : Option String
deriving DecidableEq

/--
Embeds `ParallelManager.get_optimal_job_count`.  `base_jobs` is the full
core count in CI and `max(1, cpu_count - 1)` locally; memory allows one job
per 1.5 GB (`max(1, int(available / 1.5))`; the truncation is modelled by
the floor, which agrees with Python's `int` after the `max 1` clamp); file
descriptors allow one job per 50 (`max(1, soft // 50)`).  A truthy
(nonempty) `MAX_PARALLEL_JOBS` that parses as an integer returns
`max(1, value)` immediately; a parse failure falls through to the computed
formula, which returns `max(2, min(base, memory, fd))` when
`cpu_count >= 2` and `1` otherwise.
-/
def getOptimalJobCount (m : ParallelManager) : Nat :=
  let baseJobs := if m.isCI then m.cpuCount else max 1 (m.cpuCount - 1)
  let memoryLimitedJobs := max 1 (⌊m.availableMemory / (1.5 : ℚ)⌋).toNat
  let fdLimitedJobs := max 1 (m.softFdLimit / 50)
  let optimalJobs := min baseJobs (min memoryLimitedJobs fdLimitedJobs)
  match m.envMaxParallelJobs with
  | some s =>
    if s ≠ "" then
      match parsePyInt s with
      | some n => (max 1 n).toNat
      | none => if 2 ≤ m.cpuCount then max 2 optimalJobs else 1
    else
      if 2 ≤ m.cpuCount then max 2 optimalJobs else 1
  | none => if 2 ≤ m.cpuCount then max 2 optimalJobs else 1

/--
The computed minimum-of-resources formula of `get_optimal_job_count`, i.e.
the value the function returns when no usable `MAX_PARALLEL_JOBS` override
is present.  Named separately so that theorems can state that an
unparseable override falls through to exactly this value.
-/
def computedJobCount (m : ParallelManager) : Nat :=
  let baseJobs := if m.isCI then m.cpuCount else max 1 (m.cpuCount - 1)
  let memoryLimitedJobs := max 1 (⌊m.availableMemory / (1.5 : ℚ)⌋).toNat
  let fdLimitedJobs := max 1 (m.softFdLimit / 50)
  let optimalJobs := min baseJobs (min memoryLimitedJobs fdLimitedJobs)
  if 2 ≤ m.cpuCount then max 2 optimalJobs else 1

/-- When `MAX_PARALLEL_JOBS` is unset, `get_optimal_job_count` returns the
computed minimum-of-resources formula. -/
theorem getOptimalJobCount_of_env_none (m : ParallelManager)
    (henv : m.envMaxParallelJobs = none) :
    getOptimalJobCount m = computedJobCount m := by
  simp only [getOptimalJobCount, computedJobCount, henv]

/-- When `MAX_PARALLEL_JOBS` is set but does not parse as an integer,
`get_optimal_job_count` falls through to the computed formula. -/
theorem getOptimalJobCount_of_unparseable (m : ParallelManager) (s : String)
    (henv : m.envMaxParallelJobs = some s) (hs : s ≠ "") (hp : parsePyInt s = none) :
    getOptimalJobCount m = computedJobCount m := by
  simp only [getOptimalJobCount, computedJobCount, henv, hp]
  rw [if_pos hs]

/-- When `MAX_PARALLEL_JOBS` is set to the empty string, Python's truthiness
test skips it and the computed formula applies. -/
theorem getOptimalJobCount_of_empty (m : ParallelManager)
    (henv : m.envMaxParallelJobs = some "") :
    getOptimalJobCount m = computedJobCount m := by
  simp only [getOptimalJobCount, computedJobCount, henv]
  rw [if_neg (by simp)]

/-- When `MAX_PARALLEL_JOBS` parses as the integer `n`,
`get_optimal_job_count` returns `max(1, n)`. -/
theorem getOptimalJobCount_of_parsed (m : ParallelManager) (s : String) (n : ℤ)
    (henv : m.envMaxParallelJobs = some s) (hs : s ≠ "") (hp : parsePyInt s = some n) :
    getOptimalJobCount m = (max 1 n).toNat := by
  simp only [getOptimalJobCount, henv, hp]
  rw [if_pos hs]

/-- The computed formula never returns less than 1. -/
theorem one_le_computedJobCount (m : ParallelManager) : 1 ≤ computedJobCount m := by
  simp only [computedJobCount]
  by_cases hc : 2 ≤ m.cpuCount
  · rw [if_pos hc]
    exact le_trans (by norm_num) (le_max_left 2 _)
  · rw [if_neg hc]

/-- With at least two cores the computed formula returns at least 2. -/
theorem two_le_computedJobCount (m : ParallelManager) (hc : 2 ≤ m.cpuCount) :
    2 ≤ computedJobCount m := by
  simp only [computedJobCount]
  rw [if_pos hc]
  exact le_max_left 2 _

/-- Clamping an integer below by 1 and converting to `Nat` yields at least 1. -/
theorem one_le_toNat_max_one (n : ℤ) : 1 ≤ (max 1 n).toNat := by
  rcases le_total n 1 with h1 | h1
  · rw [max_eq_left h1]; rfl
  · omega

/--
Embeds `ParallelManager.get_memory_efficient_job_count`.  In CI: project
counts above 100 cap at `min(base, 6, soft_fd // 30)`, above 50 at
`min(base, 8)`, otherwise the optimal count is returned unchanged.
Locally: above 100 caps at `min(base, 4, soft_fd // 40)`, above 50 at
`min(base, 5)`, otherwise unchanged.
-/
def getMemoryEfficientJobCount (m : ParallelManager) (projectCount : Nat) : Nat :=
  let baseJobs := getOptimalJobCount m
  if m.isCI then
    if 100 < projectCount then min baseJobs (min 6 (m.softFdLimit / 30))
    else if 50 < projectCount then min baseJobs 8
    else baseJobs
  else
    if 100 < projectCount then min baseJobs (min 4 (m.softFdLimit / 40))
    else if 50 < projectCount then min baseJobs 5
    else baseJobs

/--
Specification model written from claim C5's words (not from the source):
a cap of 6 (CI, count > 100), 8 (CI, count > 50), 2 (local, count > 100)
or 3 (local, count > 50), no cap otherwise, always taking the minimum with
`optimal_job_count()` and with the fd-derived ceiling `soft_fd // 30` (CI)
or `soft_fd // 40` (local).
-/
def memoryEfficientJobCountSpec (m : ParallelManager) (projectCount : Nat) : Nat :=
  let fdCeiling := if m.isCI then m.softFdLimit / 30 else m.softFdLimit / 40
  let cap : Option Nat :=
    if m.isCI then
      if 100 < projectCount then some 6 else if 50 < projectCount then some 8 else none
    else
      if 100 < projectCount then some 2 else if 50 < projectCount then some 3 else none
  let uncapped := min (getOptimalJobCount m) fdCeiling
  match cap with
  | some c => min uncapped c
  | none => uncapped

/--
Specification model written from the amended claim C5: the caps are 6
(CI, count > 100), 8 (CI, count > 50), 4 (local, count > 100), 5 (local,
count > 50) and absent otherwise; the result is always the minimum with
`optimal_job_count()`; the fd-derived ceiling (`soft_fd // 30` in CI,
`soft_fd // 40` locally) applies only in the count > 100 branches.
-/
def memoryEfficientJobCountAmended (m : ParallelManager) (projectCount : Nat) : Nat :=
  let cap : Option Nat :=
    if m.isCI then
      if 100 < projectCount then some 6 else if 50 < projectCount then some 8 else none
    else
      if 100 < projectCount then some 4 else if 50 < projectCount then some 5 else none
  let fdCeiling : Option Nat :=
    if 100 < projectCount then
      some (if m.isCI then m.softFdLimit / 30 else m.softFdLimit / 40)
    else none
  let base := getOptimalJobCount m
  min (min base (cap.getD base)) (fdCeiling.getD base)

/-- An 8-core non-CI machine with 16 GB available, fd soft limit 1000 and
no job-count override, used to exercise the local count > 100 branch. -/
def pmLocalLarge : ParallelManager :=
  { cpuCount := 8, availableMemory := 16, softFdLimit := 1000,
    isCI := false, envMaxParallelJobs := none }

/-- Concrete floor computation: 16 GB at 1.5 GB per job allows 10 jobs. -/
theorem floor_sixteen_div : ⌊(16 : ℚ) / (1.5 : ℚ)⌋ = (10 : ℤ) := by
  rw [Int.floor_eq_iff]
  norm_num

/-- On the 8-core/16 GB/fd-1000 machine the optimal job count is 7. -/
theorem getOptimalJobCount_pmLocalLarge : getOptimalJobCount pmLocalLarge = 7 := by
  have h := getOptimalJobCount_of_env_none pmLocalLarge rfl
  rw [h]
  simp only [computedJobCount, pmLocalLarge, floor_sixteen_div]
  norm_num

/--
C5, counterexample.  On an 8-core non-CI machine with 16 GB and fd soft
limit 1000, `optimal_job_count()` is 7, and for 101 projects the code caps
locally at `min(7, 4, 1000 // 40) = 4`, while the claim's description
("2 when target_count > 100" outside CI, min'd with optimal and
`soft_fd // 40`) yields 2.  The claimed formula therefore disagrees with
`get_memory_efficient_job_count`.
-/
theorem memory_efficient_local_caps_counterexample :
    getMemoryEfficientJobCount pmLocalLarge 101 = 4 ∧
    memoryEfficientJobCountSpec pmLocalLarge 101 = 2 := by
  constructor
  · simp only [getMemoryEfficientJobCount]
    rw [getOptimalJobCount_pmLocalLarge]
    decide
  · simp only [memoryEfficientJobCountSpec]
    rw [getOptimalJobCount_pmLocalLarge]
    decide

/--
C5, amended: `get_memory_efficient_job_count` caps at 6 (CI, > 100), 8
(CI, > 50), 4 (local, > 100), 5 (local, > 50) and is uncapped otherwise,
always takes the minimum with `optimal_job_count()`, and applies the
fd-derived ceiling (`soft_fd // 30` in CI, `soft_fd // 40` locally) only
in the > 100 branches.
-/
theorem memory_efficient_job_count_spec (m : ParallelManager) (projectCount : Nat) :
    getMemoryEfficientJobCount m projectCount = memoryEfficientJobCountAmended m projectCount := by
  simp only [getMemoryEfficientJobCount, memoryEfficientJobCountAmended]
  cases hci : m.isCI <;>
    by_cases h1 : 100 < projectCount <;> by_cases h2 : 50 < projectCount <;>
      simp only [h1, h2, if_pos, if_neg, if_true, if_false, Bool.false_eq_true,
        Option.getD_some, Option.getD_none] <;> omega

/--
C6: `get_optimal_job_count` returns at least 1 for every system state, and
at least 2 whenever the machine has at least 2 cores and the
`MAX_PARALLEL_JOBS` environment override is not set.
-/
theorem optimal_job_count_floor (m : ParallelManager) :
    1 ≤ getOptimalJobCount m ∧
    (2 ≤ m.cpuCount → m.envMaxParallelJobs = none → 2 ≤ getOptimalJobCount m) := by
  constructor
  · cases henv : m.envMaxParallelJobs with
    | none =>
      rw [getOptimalJobCount_of_env_none m henv]
      exact one_le_computedJobCount m
    | some s =>
      by_cases hs : s = ""
      · subst hs
        rw [getOptimalJobCount_of_empty m henv]
        exact one_le_computedJobCount m
      · cases hp : parsePyInt s with
        | none =>
          rw [getOptimalJobCount_of_unparseable m s henv hs hp]
          exact one_le_computedJobCount m
        | some n =>
          rw [getOptimalJobCount_of_parsed m s n henv hs hp]
          exact one_le_toNat_max_one n
  · intro hcpu henv
    rw [getOptimalJobCount_of_env_none m henv]
    exact two_le_computedJobCount m hcpu

/-- A 2-core machine with no override, witnessing C6's hypotheses. -/
def pmTwoCore : ParallelManager :=
  { cpuCount := 2, availableMemory := 8, softFdLimit := 256,
    isCI := false, envMaxParallelJobs := none }

/-- C6, witness: the floor theorem instantiated on a concrete 2-core
machine with no override. -/
theorem optimal_job_count_floor_witness :
    1 ≤ getOptimalJobCount pmTwoCore ∧ 2 ≤ getOptimalJobCount pmTwoCore :=
  ⟨(optimal_job_count_floor pmTwoCore).1,
   (optimal_job_count_floor pmTwoCore).2 (by decide) rfl⟩

/--
C10: a `MAX_PARALLEL_JOBS` override that parses as a zero or negative
integer makes `get_optimal_job_count` return exactly 1 (the parsed value
is clamped by `max(1, ...)`, not ignored), while a nonempty override that
fails to parse as an integer is ignored and the computed
minimum-of-resources formula applies.
-/
theorem job_count_override_clamping (m : ParallelManager) (s : String) :
    (m.envMaxParallelJobs = some s → s ≠ "" →
      ∀ n : ℤ, parsePyInt s = some n → n ≤ 0 → getOptimalJobCount m = 1) ∧
    (m.envMaxParallelJobs = some s → s ≠ "" → parsePyInt s = none →
      getOptimalJobCount m = computedJobCount m) := by
  constructor
  · intro henv hs n hp hn
    rw [getOptimalJobCount_of_parsed m s n henv hs hp,
      max_eq_left (le_trans hn (by norm_num))]
    rfl
  · intro henv hs hp
    exact getOptimalJobCount_of_unparseable m s henv hs hp

/-- A machine whose override is the string "0". -/
def pmZeroOverride : ParallelManager :=
  { cpuCount := 8, availableMemory := 16, softFdLimit := 1000,
    isCI := false, envMaxParallelJobs := some "0" }

/-- A machine whose override is the unparseable string "abc". -/
def pmBadOverride : ParallelManager :=
  { cpuCount := 8, availableMemory := 16, softFdLimit := 1000,
    isCI := false, envMaxParallelJobs := some "abc" }

/-- C10, witness: with override "0" the job count is exactly 1; with the
unparseable override "abc" the computed formula applies. -/
theorem job_count_override_clamping_witness :
    getOptimalJobCount pmZeroOverride = 1 ∧
    getOptimalJobCount pmBadOverride = computedJobCount pmBadOverride :=
  ⟨(job_count_override_clamping pmZeroOverride "0").1 rfl (by decide) 0 (by decide) (by decide),
   (job_count_override_clamping pmBadOverride "abc").2 rfl (by decide) (by decide)⟩

/-! ## Filesystem model -/

/-- Data of one on-disk file: its content and its modification time. -/
structure FileInfo where
  content : String
  mtime : Nat := 0
deriving DecidableEq

/-- A filesystem snapshot: an association list from path to file data.
`List.lookup` returns the first binding, so earlier entries shadow later
ones; a path with no binding is a missing file. -/
abbrev FS := List (String × FileInfo)

/-- Path concatenation, modelling `pathlib`'s `/` operator. -/
def joinPath (a b : String) : String := a ++ "/" ++ b

/-- Models the MD5 content digest computed by `_get_file_hash`.  The digest
is abstracted as an injective function of the content whose range avoids
`""`, the sentinel `_get_file_hash` returns for a missing file. -/
def md5Hex (content : String) : String := "md5:" ++ content

/-- Embeds `BuildEnvironment._get_file_hash`: the digest of the file's
content, or `""` when the file does not exist (or cannot be read). -/
def getFileHash (fs : FS) (p : String) : String :=
  match List.lookup p fs with
  | none => ""
  | some fi => md5Hex fi.content

/-! ## Build targets, results and the cache: `build_system/scons_build.py` -/

/-- Embeds the `ExportTarget` dataclass: project root, relative export
path, preset name and tracked dependency files. -/
structure ExportTarget where
  projectPath : String
  exportPath : String
  presetName : String := "web"
  dependencies : List String := []
deriving DecidableEq

/-- Embeds the `BuildResult` dataclass. -/
structure BuildResult where
  target : ExportTarget
  success : Bool
  duration : Nat
  output : String
  fileSize : Option Nat := none
  error : Option String := none
deriving DecidableEq

/-- Embeds one value of the `build_cache` JSON mapping: manifest hash,
per-dependency hashes, build time, success flag and duration. -/
structure CacheEntry where
  projectHash : String
  dependencies : List (String × String)
  buildTime : Nat
  success : Bool
  duration : Nat
deriving DecidableEq

/-- The in-memory `build_cache` dictionary, keyed by `str(project_path)`.
`List.lookup` returns the first binding, so prepending overwrites. -/
abbrev Cache := List (String × CacheEntry)

/-- The options consulted by the functions modelled here; the remaining
`BuildEnvironment` options (jobs, verbosity, binary path, ...) do not
affect them. -/
structure BuildOptions where
  forceRebuild : Bool
deriving DecidableEq

/-- The absolute output artifact path `target.project_path / target.export_path`. -/
def absExportPath (t : ExportTarget) : String := joinPath t.projectPath t.exportPath

/-- The manifest path `target.project_path / 'project.godot'`. -/
def manifestPath (t : ExportTarget) : String := joinPath t.projectPath "project.godot"

/--
Embeds `BuildEnvironment._needs_rebuild`: true when force-rebuild is set;
otherwise true when the absolute export path does not exist, when the
cache has no entry for the project, when the `project.godot` manifest does
not exist, when the stored `project_hash` differs from the manifest's
current hash, or when some dependency is missing or its current hash
differs from the stored one (a dependency absent from the stored mapping
counts as differing); false only when all checks pass.
-/
def needsRebuild (opts : BuildOptions) (cache : Cache) (t : ExportTarget) (fs : FS) : Bool :=
  if opts.forceRebuild then true
  else if (List.lookup (absExportPath t) fs).isNone then true
  else
    match List.lookup t.projectPath cache with
    | none => true
    | some entry =>
      if (List.lookup (manifestPath t) fs).isNone then true
      else if entry.projectHash != getFileHash fs (manifestPath t) then true
      else if t.dependencies.any (fun dep =>
          (List.lookup dep fs).isNone ||
          (List.lookup dep entry.dependencies != some (getFileHash fs dep))) then true
      else false

/--
Specification model written from claim C2's words (not from the source):
true unconditionally under force-rebuild; otherwise true when the output
file is missing, when no cache entry exists, when the manifest's current
hash differs from the stored one, or when some dependency is missing or
differs; false only when all these checks pass.  (No separate check that
the manifest file exists.)
-/
def isStaleSpecC2 (opts : BuildOptions) (cache : Cache) (t : ExportTarget) (fs : FS) : Bool :=
  if opts.forceRebuild then true
  else if (List.lookup (absExportPath t) fs).isNone then true
  else
    match List.lookup t.projectPath cache with
    | none => true
    | some entry =>
      if entry.projectHash != getFileHash fs (manifestPath t) then true
      else if t.dependencies.any (fun dep =>
          (List.lookup dep fs).isNone ||
          (List.lookup dep entry.dependencies != some (getFileHash fs dep))) then true
      else false

/--
Specification model written from the amended claim C2, as a disjunction:
stale iff force-rebuild is set, or the output file is missing, or no cache
entry exists, or the manifest file is missing, or its current hash differs
from the stored one, or some dependency is missing or differs.
-/
def isStaleAmended (opts : BuildOptions) (cache : Cache) (t : ExportTarget) (fs : FS) : Bool :=
  opts.forceRebuild ||
  (List.lookup (absExportPath t) fs).isNone ||
  match List.lookup t.projectPath cache with
  | none => true
  | some entry =>
    (List.lookup (manifestPath t) fs).isNone ||
    entry.projectHash != getFileHash fs (manifestPath t) ||
    t.dependencies.any (fun dep =>
      (List.lookup dep fs).isNone ||
      (List.lookup dep entry.dependencies != some (getFileHash fs dep)))

/-- Default build options: no force rebuild. -/
def defaultOptions : BuildOptions := { forceRebuild := false }

/-- A target whose manifest file is gone, with an empty dependency list. -/
def tManifestGone : ExportTarget :=
  { projectPath := "p", exportPath := "exports/web/index.html" }

/-- A snapshot in which the export artifact exists but the manifest does not. -/
def fsManifestGone : FS := [("p/exports/web/index.html", { content := "html" })]

/-- A cache entry recorded while the manifest was already missing, so the
stored manifest hash is the missing-file sentinel `""`. -/
def cacheManifestGone : Cache :=
  [("p", { projectHash := "", dependencies := [], buildTime := 0,
           success := true, duration := 1 })]

/--
C2, counterexample.  `_needs_rebuild` also returns true when the manifest
file `project.godot` does not exist, a condition absent from the claim's
list: with an existing output artifact, a cache entry storing the
missing-file hash `""`, and no dependencies, the code reports stale while
the claim's checks all pass.
-/
theorem needs_rebuild_manifest_check_counterexample :
    needsRebuild defaultOptions cacheManifestGone tManifestGone fsManifestGone = true ∧
    isStaleSpecC2 defaultOptions cacheManifestGone tManifestGone fsManifestGone = false := by
  constructor <;> rfl

/-- The if-cascade of `_needs_rebuild` in disjunctive form (shared helper). -/
theorem needsRebuild_eq_isStaleAmended (opts : BuildOptions) (cache : Cache)
    (t : ExportTarget) (fs : FS) :
    needsRebuild opts cache t fs = isStaleAmended opts cache t fs := by
  unfold needsRebuild isStaleAmended
  cases hf : opts.forceRebuild
  · cases ho : (List.lookup (absExportPath t) fs).isNone
    · cases hl : List.lookup t.projectPath cache
      · simp [hf, ho, hl]
      · next entry =>
        cases hm : (List.lookup (manifestPath t) fs).isNone
        · cases hh : entry.projectHash != getFileHash fs (manifestPath t)
          · simp [hf, ho, hl, hm, hh]
          · simp [hf, ho, hl, hm, hh]
        · simp [hf, ho, hl, hm]
    · simp [hf, ho]
  · simp [hf]

/--
C2, amended: `_needs_rebuild` returns true exactly when force-rebuild is
set, or the output artifact is missing, or the cache has no entry, or the
manifest file is missing, or the manifest's current hash differs from the
stored one, or some dependency is missing or its hash differs from the
stored one; it returns false only when all these checks pass.
-/
theorem needs_rebuild_characterization (opts : BuildOptions) (cache : Cache)
    (t : ExportTarget) (fs : FS) :
    needsRebuild opts cache t fs = isStaleAmended opts cache t fs :=
  needsRebuild_eq_isStaleAmended opts cache t fs

/-! ## Cache update and the two-run scheduler: `Build` and `_update_cache` -/

/-- The entry `_update_cache` writes for a target: current manifest hash,
current hash of every dependency, the timestamp and the result's success
flag and duration (hashes are computed at record time, success or not). -/
def freshCacheEntry (t : ExportTarget) (r : BuildResult) (fs : FS) (now : Nat) : CacheEntry :=
  { projectHash := getFileHash fs (manifestPath t),
    dependencies := t.dependencies.map (fun d => (d, getFileHash fs d)),
    buildTime := now,
    success := r.success,
    duration := r.duration }

/-- Embeds `BuildEnvironment._update_cache`: the dictionary assignment
`build_cache[key] = entry`, modelled by prepending (lookup returns the
first, i.e. most recent, binding). -/
def updateCache (cache : Cache) (t : ExportTarget) (r : BuildResult) (fs : FS) (now : Nat) : Cache :=
  (t.projectPath, freshCacheEntry t r fs now) :: cache

/-- Embeds the partition step of `BuildEnvironment.Build`: the sub-list of
targets for which `_needs_rebuild` holds, in input order. -/
def targetsToBuild (opts : BuildOptions) (cache : Cache) (fs : FS)
    (targets : List ExportTarget) : List ExportTarget :=
  targets.filter (fun t => needsRebuild opts cache t fs)

/--
Embeds the cache effect of one `BuildEnvironment.Build` pass: every stale
target is exported and `_update_cache` records its entry.  The export
subprocesses are abstracted into `results` (the `BuildResult` each worker
returns) and into `fs`, the filesystem snapshot after the pass; recording
a target hashes its manifest and dependencies in that snapshot, which
matches the source whenever no tracked file changes between the record
step and the next staleness check (the situation the idempotence claim
quantifies over).
-/
def runBuild (opts : BuildOptions) (cache : Cache) (fs : FS)
    (results : ExportTarget → BuildResult) (now : Nat)
    (targets : List ExportTarget) : Cache :=
  (targetsToBuild opts cache fs targets).foldl
    (fun c t => updateCache c t (results t) fs now) cache

/-- An option that is `some` is not `none`. -/
theorem isNone_eq_false_of_isSome {α : Type} {o : Option α} (h : o.isSome = true) :
    o.isNone = false := by
  cases o <;> simp_all

/-- Looking up a key in the map that pairs each element with its current
hash returns that element's current hash. -/
theorem lookup_map_hash (fs : FS) (l : List String) (d : String) (h : d ∈ l) :
    List.lookup d (l.map (fun x => (x, getFileHash fs x))) = some (getFileHash fs d) := by
  induction l with
  | nil => cases h
  | cons x xs ih =>
    by_cases hdx : d = x
    · subst hdx
      simp [List.lookup]
    · have h1 : d ∈ xs := by
        rcases List.mem_cons.mp h with h2 | h2
        · exact absurd h2 hdx
        · exact h2
      simpa [List.lookup, beq_eq_false_iff_ne.mpr hdx] using ih h1

/-- `_needs_rebuild` reads the cache only through the target's own entry. -/
theorem needsRebuild_congr (opts : BuildOptions) (c₁ c₂ : Cache)
    (t : ExportTarget) (fs : FS)
    (h : List.lookup t.projectPath c₁ = List.lookup t.projectPath c₂) :
    needsRebuild opts c₁ t fs = needsRebuild opts c₂ t fs := by
  unfold needsRebuild
  rw [h]

/-- A target whose cache entry is the freshly recorded one is not stale,
provided force-rebuild is unset and its output, manifest and dependencies
all exist in the unchanged snapshot. -/
theorem needsRebuild_of_fresh_entry (opts : BuildOptions) (c : Cache)
    (t : ExportTarget) (r : BuildResult) (fs : FS) (now : Nat)
    (hforce : opts.forceRebuild = false)
    (hlook : List.lookup t.projectPath c = some (freshCacheEntry t r fs now))
    (hout : (List.lookup (absExportPath t) fs).isSome = true)
    (hman : (List.lookup (manifestPath t) fs).isSome = true)
    (hdep : ∀ d ∈ t.dependencies, (List.lookup d fs).isSome = true) :
    needsRebuild opts c t fs = false := by
  rw [needsRebuild_eq_isStaleAmended]
  unfold isStaleAmended
  rw [hforce, hlook, isNone_eq_false_of_isSome hout, isNone_eq_false_of_isSome hman]
  simp only [Bool.false_or, freshCacheEntry, bne_self_eq_false]
  rw [List.any_eq_false]
  intro d hd hcontra
  rw [isNone_eq_false_of_isSome (hdep d hd), lookup_map_hash fs t.dependencies d hd] at hcontra
  simp at hcontra

/-- Folding cache updates for targets none of which has key `k` leaves the
binding of `k` unchanged. -/
theorem lookup_foldl_updateCache_ne (results : ExportTarget → BuildResult) (fs : FS)
    (now : Nat) (L : List ExportTarget) (c : Cache) (k : String)
    (h : ∀ u ∈ L, u.projectPath ≠ k) :
    List.lookup k (L.foldl (fun c u => updateCache c u (results u) fs now) c) =
      List.lookup k c := by
  induction L generalizing c with
  | nil => rfl
  | cons u L ih =>
    rw [List.foldl_cons, ih _ (fun v hv => h v (List.mem_cons_of_mem u hv))]
    unfold updateCache
    simp [List.lookup, beq_eq_false_iff_ne.mpr (Ne.symm (h u (List.mem_cons_self u L)))]

/-- After folding cache updates over a list of targets with pairwise
distinct keys, each of those targets is bound to its fresh entry. -/
theorem lookup_foldl_updateCache_mem (results : ExportTarget → BuildResult) (fs : FS)
    (now : Nat) (L : List ExportTarget) (c : Cache) (t : ExportTarget)
    (ht : t ∈ L)
    (hdist : L.Pairwise (fun a b => a.projectPath ≠ b.projectPath)) :
    List.lookup t.projectPath (L.foldl (fun c u => updateCache c u (results u) fs now) c) =
      some (freshCacheEntry t (results t) fs now) := by
  induction L generalizing c with
  | nil => cases ht
  | cons u L ih =>
    rw [List.foldl_cons]
    rcases List.mem_cons.mp ht with h1 | h1
    · subst h1
      have hne : ∀ v ∈ L, v.projectPath ≠ t.projectPath := by
        intro v hv
        exact Ne.symm ((List.pairwise_cons.mp hdist).1 v hv)
      rw [lookup_foldl_updateCache_ne results fs now L _ _ hne]
      unfold updateCache
      simp [List.lookup]
    · exact ih _ h1 (List.pairwise_cons.mp hdist).2

/--
C9: the staleness check never consults the stored success flag.  After
`_update_cache` records a failed build (`success=False`), if the output
artifact exists on disk and neither the manifest nor any dependency
changed, `_needs_rebuild` classifies the target as up to date, so it is
skipped rather than retried.
-/
theorem failed_build_recorded_then_skipped (opts : BuildOptions) (cache : Cache)
    (t : ExportTarget) (r : BuildResult) (fs : FS) (now : Nat)
    (hforce : opts.forceRebuild = false)
    (_hfail : r.success = false)
    (hout : (List.lookup (absExportPath t) fs).isSome = true)
    (hman : (List.lookup (manifestPath t) fs).isSome = true)
    (hdep : ∀ d ∈ t.dependencies, (List.lookup d fs).isSome = true) :
    needsRebuild opts (updateCache cache t r fs now) t fs = false :=
  needsRebuild_of_fresh_entry opts _ t r fs now hforce
    (by simp [updateCache, List.lookup]) hout hman hdep

/-- A target with one tracked dependency, for the C9 witness. -/
def tRecorded : ExportTarget :=
  { projectPath := "p", exportPath := "exports/web/index.html",
    dependencies := ["p/main.gd"] }

/-- A snapshot containing the target's output, manifest and dependency. -/
def fsRecorded : FS :=
  [("p/exports/web/index.html", { content := "html" }),
   ("p/project.godot", { content := "cfg" }),
   ("p/main.gd", { content := "script" })]

/-- The failed result a worker returns for a target. -/
def failedResult (t : ExportTarget) : BuildResult :=
  { target := t, success := false, duration := 0, output := "",
    error := some "export failed" }

/-- C9, witness: recording a concrete failed build and re-checking
staleness on the unchanged snapshot reports up to date. -/
theorem failed_build_recorded_then_skipped_witness :
    needsRebuild defaultOptions
      (updateCache [] tRecorded (failedResult tRecorded) fsRecorded 7)
      tRecorded fsRecorded = false :=
  failed_build_recorded_then_skipped defaultOptions [] tRecorded
    (failedResult tRecorded) fsRecorded 7 rfl rfl (by decide) (by decide) (by decide)

/-- A target whose export will produce no output artifact. -/
def tNoOutput : ExportTarget :=
  { projectPath := "p", exportPath := "exports/web/index.html" }

/-- A snapshot holding only the manifest: the failed export wrote nothing. -/
def fsManifestOnly : FS := [("p/project.godot", { content := "cfg" })]

/--
C3, counterexample.  The second-run emptiness fails without an assumption
that the first run left every target's output artifact on disk: a single
target whose export fails and produces no output file gets a cache entry
recorded, yet the second run still classifies it stale (output missing)
and queues it again, so `to_build` is not empty.
-/
theorem second_run_counterexample :
    targetsToBuild defaultOptions
        (runBuild defaultOptions [] fsManifestOnly failedResult 0 [tNoOutput])
        fsManifestOnly [tNoOutput] ≠ [] := by
  decide

/--
C3, amended: running the scheduler twice over the same target list with no
file changes in between and force-rebuild unset yields zero `to_build`
targets on the second run, provided that after the first run every
target's output artifact, manifest and dependency files exist on disk and
the targets have pairwise distinct project paths.
-/
theorem second_run_no_rebuilds (opts : BuildOptions) (cache : Cache) (fs : FS)
    (results : ExportTarget → BuildResult) (now : Nat) (targets : List ExportTarget)
    (hforce : opts.forceRebuild = false)
    (hout : ∀ t ∈ targets, (List.lookup (absExportPath t) fs).isSome = true)
    (hman : ∀ t ∈ targets, (List.lookup (manifestPath t) fs).isSome = true)
    (hdep : ∀ t ∈ targets, ∀ d ∈ t.dependencies, (List.lookup d fs).isSome = true)
    (hdist : targets.Pairwise (fun a b => a.projectPath ≠ b.projectPath)) :
    targetsToBuild opts (runBuild opts cache fs results now targets) fs targets = [] := by
  unfold targetsToBuild
  rw [List.filter_eq_nil_iff]
  intro t ht
  rw [Bool.not_eq_true]
  by_cases hstale : needsRebuild opts cache t fs = true
  · have htb : t ∈ targetsToBuild opts cache fs targets :=
      List.mem_filter.mpr ⟨ht, hstale⟩
    have hdistb : (targetsToBuild opts cache fs targets).Pairwise
        (fun a b => a.projectPath ≠ b.projectPath) :=
      hdist.sublist (List.filter_sublist _)
    have hlook := lookup_foldl_updateCache_mem results fs now
      (targetsToBuild opts cache fs targets) cache t htb hdistb
    exact needsRebuild_of_fresh_entry opts _ t (results t) fs now hforce hlook
      (hout t ht) (hman t ht) (hdep t ht)
  · have hne : ∀ u ∈ targetsToBuild opts cache fs targets, u.projectPath ≠ t.projectPath := by
      intro u hu
      rcases List.mem_filter.mp hu with ⟨hu1, hu2⟩
      intro hpp
      by_cases hut : u = t
      · subst hut
        exact hstale hu2
      · exact (hdist.forall (fun a b h => h.symm)) hu1 ht hut hpp
    have hlk := lookup_foldl_updateCache_ne results fs now
      (targetsToBuild opts cache fs targets) cache t.projectPath hne
    have heq := needsRebuild_congr opts
      (runBuild opts cache fs results now targets) cache t fs hlk
    rw [heq]
    cases hnr : needsRebuild opts cache t fs
    · rfl
    · exact absurd hnr hstale

/-- Two targets with distinct project paths, for the C3 witness. -/
def tFirst : ExportTarget :=
  { projectPath := "a", exportPath := "exports/web/index.html",
    dependencies := ["a/main.gd"] }

/-- Second target of the C3 witness. -/
def tSecond : ExportTarget :=
  { projectPath := "b", exportPath := "exports/web/index.html" }

/-- A snapshot where both targets' outputs, manifests and dependencies exist. -/
def fsBothBuilt : FS :=
  [("a/exports/web/index.html", { content := "html-a" }),
   ("a/project.godot", { content := "cfg-a" }),
   ("a/main.gd", { content := "script" }),
   ("b/exports/web/index.html", { content := "html-b" }),
   ("b/project.godot", { content := "cfg-b" })]

/-- C3, witness: on a concrete two-target list whose artifacts all exist
after the first run, the second run queues nothing. -/
theorem second_run_no_rebuilds_witness :
    targetsToBuild defaultOptions
        (runBuild defaultOptions [] fsBothBuilt failedResult 3 [tFirst, tSecond])
        fsBothBuilt [tFirst, tSecond] = [] :=
  second_run_no_rebuilds defaultOptions [] fsBothBuilt failedResult 3 [tFirst, tSecond]
    rfl (by decide) (by decide) (by decide) (by decide)

/-! ## Export workers: `_export_project` and `godot_exporter.py` -/

/-- Outcome of one external subprocess invocation as observed by the
caller: normal completion with an exit status and captured streams, the
300-second timeout (`subprocess.TimeoutExpired`), or some other raised
exception with its message. -/
inductive RunOutcome where
  | completed (returncode : Int) (stdout stderr : String)
  | timedOut
  | raised (msg : String)
deriving DecidableEq

/-- Models `pathlib.Path.with_suffix('.wasm')`: everything from the last
dot on is replaced by `.wasm` (appended when there is no dot). -/
def withSuffixWasm (p : String) : String :=
  if p.data.contains '.' then
    String.mk (((p.data.reverse.dropWhile (fun c => c != '.')).drop 1).reverse) ++ ".wasm"
  else p ++ ".wasm"

/-- The sibling `.wasm` artifact `_export_project` also requires. -/
def wasmPath (t : ExportTarget) : String := withSuffixWasm (absExportPath t)

/--
Embeds `BuildEnvironment._export_project`.  `mkdirError` is the exception
message when creating the export directory fails (`none` when it
succeeds); `run` is the subprocess outcome and `fsAfter` the disk state
when it returns; `dur` the elapsed wall time.  On normal completion,
success is the existence of both the export artifact and its `.wasm`
sibling — the exit status is not consulted — and the file size is the
`.wasm` size (content length in this model); the error field carries the
captured stderr on failure.  The directory-creation failure path passes
its message positionally, so it lands in `output` and `error` stays
`none`, exactly as in the source.
-/
def exportProject (t : ExportTarget) (mkdirError : Option String) (run : RunOutcome)
    (fsAfter : FS) (dur : Nat) : BuildResult :=
  match mkdirError with
  | some e =>
    { target := t, success := false, duration := dur,
      output := "Directory creation failed: " ++ e }
  | none =>
    match run with
    | .completed _rc stdout stderr =>
      let success := (List.lookup (absExportPath t) fsAfter).isSome &&
                     (List.lookup (wasmPath t) fsAfter).isSome
      { target := t, success := success, duration := dur,
        output := stdout ++ stderr,
        fileSize := if success then
            (List.lookup (wasmPath t) fsAfter).map (fun fi => fi.content.length)
          else none,
        error := if success then none else some stderr }
    | .timedOut =>
      { target := t, success := false, duration := dur, output := "",
        error := some "Export timeout after 5 minutes" }
    | .raised e =>
      { target := t, success := false, duration := dur, output := "",
        error := some e }

/-- Embeds the `ExportResult` dataclass of `godot_exporter.py`. -/
structure ExportResult where
  success : Bool
  projectPath : String
  exportPath : String
  errorMessage : Option String := none
  exportSize : Option Nat := none
  exportTime : Option Nat := none
deriving DecidableEq

/-- The modification time of a file, `0` when missing (the callers only
consult existing files). -/
def mtimeOf (fs : FS) (p : String) : Nat :=
  ((List.lookup p fs).map (fun fi => fi.mtime)).getD 0

/-- Embeds `GodotExporter._is_export_up_to_date`: the export file is up to
date when no project source file (the files the source patterns match,
passed here as `sourceFiles`) is newer than it. -/
def isExportUpToDate (fs : FS) (sourceFiles : List String) (exportFile : String) : Bool :=
  match List.lookup exportFile fs with
  | none => false
  | some efi => !(sourceFiles.any (fun p => efi.mtime < mtimeOf fs p))

/-- Embeds `GodotExporter._get_export_size`: total size of the files under
the export directory (content length stands for `st_size`). -/
def exportSizeOf (fs : FS) (exportDir : String) : Nat :=
  (fs.filter (fun pr => pr.1.startsWith (exportDir ++ "/"))).foldl
    (fun acc pr => acc + pr.2.content.length) 0

/-- The export directory `project_path / "exports" / "web"`. -/
def exporterExportDir (p : String) : String := joinPath (joinPath p "exports") "web"

/-- The export file `export_dir / "index.html"`. -/
def exporterExportFile (p : String) : String := joinPath (exporterExportDir p) "index.html"

/--
Embeds `GodotExporter.export_project_to_web`.  A missing `project.godot`
fails immediately; an existing export that is up to date (and no force
flag) succeeds without running the subprocess; a preset-write failure
(`presetWriteOk = false`) fails; otherwise the subprocess runs and success
requires exit status zero AND the export file existing afterwards, each
failure branch carrying its message.
-/
def exportProjectToWeb (projectPath : String) (forceRebuild : Bool) (fs : FS)
    (sourceFiles : List String) (presetWriteOk : Bool) (run : RunOutcome)
    (fsAfter : FS) (dur : Nat) : ExportResult :=
  let exportDir := exporterExportDir projectPath
  let exportFile := exporterExportFile projectPath
  if (List.lookup (joinPath projectPath "project.godot") fs).isNone then
    { success := false, projectPath := projectPath, exportPath := "",
      errorMessage := some "No project.godot file found" }
  else if (List.lookup exportFile fs).isSome && !forceRebuild &&
      isExportUpToDate fs sourceFiles exportFile then
    { success := true, projectPath := projectPath, exportPath := exportFile,
      exportSize := some (exportSizeOf fs exportDir) }
  else if !presetWriteOk then
    { success := false, projectPath := projectPath, exportPath := exportFile,
      errorMessage := some "Failed to create export preset" }
  else
    match run with
    | .completed rc _stdout stderr =>
      if rc == 0 && (List.lookup exportFile fsAfter).isSome then
        { success := true, projectPath := projectPath, exportPath := exportFile,
          exportSize := some (exportSizeOf fsAfter exportDir), exportTime := some dur }
      else
        { success := false, projectPath := projectPath, exportPath := exportFile,
          errorMessage := some ("Export failed (code " ++ toString rc ++ "): " ++ stderr) }
    | .timedOut =>
      { success := false, projectPath := projectPath, exportPath := exportFile,
        errorMessage := some "Export timed out after 5 minutes" }
    | .raised e =>
      { success := false, projectPath := projectPath, exportPath := exportFile,
        errorMessage := some ("Export error: " ++ e) }

/-- Models `pathlib.Path.parent`: drop the last path component (`.` when
there is only one component). -/
def parentDir (p : String) : String :=
  if p.data.contains '/' then
    String.mk (((p.data.reverse.dropWhile (fun c => c != '/')).drop 1).reverse)
  else "."

/--
Embeds the result-collection loop of
`GodotExporter.export_projects_parallel`: each submitted project file is
paired with its future's outcome (`Except.error` when `future.result()`
raises); a raised future is converted into a failed `ExportResult` instead
of being dropped.  Completion order is abstracted into the list order.
-/
def collectParallelResults (jobs : List (String × Except String ExportResult)) :
    List ExportResult :=
  jobs.map (fun pr =>
    match pr.2 with
    | .ok res => res
    | .error e =>
      { success := false, projectPath := parentDir pr.1, exportPath := "",
        errorMessage := some ("Exception: " ++ e) })

/-- The parallel collector produces exactly one result per submitted job,
raised futures included. -/
theorem collectParallelResults_length (jobs : List (String × Except String ExportResult)) :
    (collectParallelResults jobs).length = jobs.length := by
  simp [collectParallelResults]

/-- A target used by the export-success theorems. -/
def tC1 : ExportTarget :=
  { projectPath := "p", exportPath := "exports/web/index.html" }

/-- A post-run snapshot in which both expected artifacts exist. -/
def fsC1After : FS :=
  [("p/exports/web/index.html", { content := "html" }),
   ("p/exports/web/index.wasm", { content := "wasm" })]

/--
C1, counterexample.  `_export_project` (scons_build.py) declares success
for a subprocess that exited with status 1, because both output artifacts
exist on disk afterwards: the exit status is never consulted, refuting
"success only if the subprocess exits with status zero".
-/
theorem export_success_ignores_exit_code_counterexample :
    (exportProject tC1 none (.completed 1 "" "boom") fsC1After 2).success = true ∧
    (1 : Int) ≠ 0 := by
  exact ⟨by decide, by decide⟩

/--
C1, amended: `_export_project` (scons_build.py) declares success exactly
when both the export artifact and its `.wasm` sibling exist on disk after
the run, regardless of the exit status; `export_project_to_web`
(godot_exporter.py), on the branch that actually runs the subprocess,
declares success exactly when the subprocess exits with status zero and
the export file exists afterwards.
-/
theorem export_success_criteria
    (t : ExportTarget) (rc : Int) (sout serr : String) (fsA : FS) (dur : Nat)
    (p : String) (force : Bool) (fs : FS) (src : List String)
    (rc2 : Int) (sout2 serr2 : String) (fsA2 : FS) (dur2 : Nat)
    (hman : (List.lookup (joinPath p "project.godot") fs).isSome = true)
    (hnocache : ((List.lookup (exporterExportFile p) fs).isSome && !force &&
      isExportUpToDate fs src (exporterExportFile p)) = false) :
    ((exportProject t none (.completed rc sout serr) fsA dur).success = true ↔
      ((List.lookup (absExportPath t) fsA).isSome = true ∧
       (List.lookup (wasmPath t) fsA).isSome = true)) ∧
    ((exportProjectToWeb p force fs src true (.completed rc2 sout2 serr2) fsA2 dur2).success = true ↔
      (rc2 = 0 ∧ (List.lookup (exporterExportFile p) fsA2).isSome = true)) := by
  constructor
  · simp [exportProject, Bool.and_eq_true]
  · have hm' := isNone_eq_false_of_isSome hman
    by_cases hrc : rc2 = 0
    · by_cases hex : (List.lookup (exporterExportFile p) fsA2).isSome = true
      · simp [exportProjectToWeb, hm', hnocache, hrc, hex]
      · simp [exportProjectToWeb, hm', hnocache, hrc, hex]
    · have hb : (rc2 == 0) = false := beq_eq_false_iff_ne.mpr hrc
      by_cases hex : (List.lookup (exporterExportFile p) fsA2).isSome = true
      · simp [exportProjectToWeb, hm', hnocache, hb, hrc, hex]
      · simp [exportProjectToWeb, hm', hnocache, hb, hrc, hex]

/-- The pre-run snapshot of a project with a manifest and no prior export. -/
def fsQBefore : FS := [("q/project.godot", { content := "cfg" })]

/-- The post-run snapshot in which the exporter's output exists. -/
def fsQAfter : FS := [("q/exports/web/index.html", { content := "html" })]

/-- C1, witness: the success criteria instantiated on concrete runs of both
export functions. -/
theorem export_success_criteria_witness :
    ((exportProject tC1 none (.completed 0 "" "") fsC1After 1).success = true ↔
      ((List.lookup (absExportPath tC1) fsC1After).isSome = true ∧
       (List.lookup (wasmPath tC1) fsC1After).isSome = true)) ∧
    ((exportProjectToWeb "q" false fsQBefore [] true (.completed 0 "" "") fsQAfter 1).success = true ↔
      ((0 : Int) = 0 ∧ (List.lookup (exporterExportFile "q") fsQAfter).isSome = true)) :=
  export_success_criteria tC1 0 "" "" fsC1After 1 "q" false fsQBefore [] 0 "" "" fsQAfter 1
    (by decide) (by decide)

/--
C4: evaluation at the failing input.  When creating the export directory
raises (here with message "boom"), `_export_project` returns a
`BuildResult` whose `success` is false but whose `error` field is `none`:
the message is passed positionally into the `output` field
(`BuildResult(target, False, duration, "Directory creation failed: ...")`),
while every sibling failure branch sets `error=` by keyword.  The claim
(and the spec's error taxonomy, `error=<tag/message>`) says the message
belongs in `error`.
-/
theorem directory_failure_error_misplaced :
    exportProject tC1 (some "boom") (.completed 0 "" "") [] 0 =
      { target := tC1, success := false, duration := 0,
        output := "Directory creation failed: boom", fileSize := none,
        error := none } := by
  rfl

/-! ## Cache persistence: `_save_cache` -/

/--
The contents of `build_cache.json` observable while `_save_cache` runs:
`open(cache_file, 'w')` first truncates the file in place, then
`json.dump` streams the serialized text into it, so the empty file and
every prefix of the serialized text are observable intermediate states.
-/
def saveCacheObservableContents (serialized : String) : List String :=
  (List.range (serialized.length + 1)).map (fun k => String.mk (serialized.data.take k))

/-- Specification model written from claim C7's words: an atomic
write-then-replace never exposes a state other than the previous content
or the complete new content. -/
def atomicObservable (oldContent newContent : String) (states : List String) : Bool :=
  states.all (fun s => s == oldContent || s == newContent)

/-- Models the `try/except IOError` of `_save_cache`: the write either
succeeds, leaving the serialized text as the file content (`Sum.inr`), or
fails, in which case a warning is logged and the function returns
(`Sum.inl`, carrying the warning text) instead of raising. -/
def saveCacheOutcome (ioFails : Bool) (serialized : String) : String ⊕ String :=
  if ioFails then Sum.inl "Failed to save build cache" else Sum.inr serialized

/--
C7, counterexample.  `_save_cache` opens the cache file with mode `w` and
streams the JSON into it; replacing content "cache-v1" by "cache-v2"
exposes intermediate file states (the truncated empty file, partial
prefixes) that are neither the old nor the new content, so the write is
not atomic write-then-replace.
-/
theorem save_cache_not_atomic_counterexample :
    atomicObservable "cache-v1" "cache-v2"
      (saveCacheObservableContents "cache-v2") = false := by
  decide

/--
C7, amended: `_save_cache` writes the serialized cache directly into the
cache file — opening truncates it to empty, then the text is streamed, so
a partially written cache file is observable mid-write — and a write
failure is logged as a warning ("Failed to save build cache") with the
function returning normally instead of raising.
-/
theorem save_cache_truncate_then_write :
    (∀ serialized : String, "" ∈ saveCacheObservableContents serialized) ∧
    (∀ serialized : String,
      saveCacheOutcome true serialized = Sum.inl "Failed to save build cache") ∧
    (∀ serialized : String, saveCacheOutcome false serialized = Sum.inr serialized) := by
  refine ⟨fun s => ?_, fun s => rfl, fun s => rfl⟩
  exact List.mem_map.mpr ⟨0, List.mem_range.mpr (Nat.succ_pos _), rfl⟩

/-! ## Project scanning: `ScanForProjects` and `AddTarget` -/

/-- Embeds `BuildEnvironment.AddTarget` as called by the scanner: default
export path `exports/web/index.html`, the default preset name, and
`project.godot` appended as an implicit dependency when it exists. -/
def addTarget (fs : FS) (projectPath : String) : ExportTarget :=
  let projectFile := joinPath projectPath "project.godot"
  { projectPath := projectPath,
    exportPath := joinPath (joinPath "exports" "web") "index.html",
    presetName := "web",
    dependencies := if (List.lookup projectFile fs).isSome then [projectFile] else [] }

/--
Embeds `BuildEnvironment.ScanForProjects`.  `root_path.rglob('project.godot')`
enumerates manifest files in filesystem enumeration order, which is an
input of the model because `rglob` performs no sorting; each manifest's
parent directory becomes a target via `AddTarget`, in that order.  A
missing root directory yields no targets.
-/
def scanForProjects (fs : FS) (rootExists : Bool) (projectFiles : List String) :
    List ExportTarget :=
  if rootExists then projectFiles.map (fun pf => addTarget fs (parentDir pf)) else []

/-- A filesystem containing two projects whose enumeration order is not
alphabetical. -/
def fsTwoProjects : FS :=
  [("b/project.godot", { content := "pb" }), ("a/project.godot", { content := "pa" })]

/--
C8, counterexample.  With the recursive glob enumerating `b/project.godot`
before `a/project.godot` (a legal filesystem enumeration order —
`pathlib.rglob` does not sort), `ScanForProjects` returns the targets in
that order, which is not sorted by path.
-/
theorem scan_not_sorted_counterexample :
    (scanForProjects fsTwoProjects true
        ["b/project.godot", "a/project.godot"]).map (fun t => t.projectPath) = ["b", "a"] ∧
    ¬ List.Sorted (fun a b : String => a ≤ b) ["b", "a"] := by
  constructor
  · decide
  · intro h
    have hba : ("b" : String) ≤ "a" := (List.pairwise_cons.mp h).1 "a" (by simp)
    rw [String.le_iff_toList_le] at hba
    exact absurd hba (by decide)

/--
C8, amended: `ScanForProjects` returns one target per discovered manifest,
in the enumeration order of the recursive glob (the parent directory of
each manifest file, in order), with no sorting applied.
-/
theorem scan_returns_enumeration_order (fs : FS) (projectFiles : List String) :
    (scanForProjects fs true projectFiles).map (fun t => t.projectPath) =
      projectFiles.map parentDir := by
  simp [scanForProjects, addTarget, Function.comp]

end GodotBuild
